import Mathlib

/-!
Shallow embedding of the connection-control and cipher-negotiation core in
ssl/s3_lib.c (an OpenSSL-3.0 fork with national cipher-suite extensions).

Conventions of the embedding:
* machine integers are Nat (bitmasks use Nat land/lor); C int results are Int;
* byte buffers are List Nat (each element one byte);
* fallible external collaborators (record layer, RNG, KDF, security policy)
  are passed in explicitly as oracle values or Bool/function parameters;
* the three static cipher tables are embedded by their 32-bit id values in
  source order; ids expand the CK macros of the public headers, where the id
  is the 0x03000000 cipher-suite tag ORed onto the 2-byte IANA wire code
  (the GOST and national-suite entries carry literal ids in the source).
-/

set_option maxRecDepth 40000

/-- Ids of the tls13_ciphers table, in source order (5 entries). -/
def tls13_cipher_ids : List Nat := [
  0x03001301, 0x03001302, 0x03001303, 0x03001304, 0x03001305]

/-- Ids of the ssl3_ciphers table, in source order (199 entries, full-featured
build: the OPENSSL_NO_GOST / OPENSSL_NO_WEAK_SSL_CIPHERS guards are off). -/
def ssl3_cipher_ids : List Nat := [
  0x03000001, 0x03000002, 0x0300000a, 0x03000013, 0x03000016, 0x0300001b,
  0x0300002f, 0x03000032, 0x03000033, 0x03000034, 0x03000035, 0x03000038,
  0x03000039, 0x0300003a, 0x0300003b, 0x0300003c, 0x0300003d, 0x03000040,
  0x03000067, 0x0300006a, 0x0300006b, 0x0300006c, 0x0300006d, 0x0300009c,
  0x0300009d, 0x0300009e, 0x0300009f, 0x030000a2, 0x030000a3, 0x030000a6,
  0x030000a7, 0x0300c09c, 0x0300c09d, 0x0300c09e, 0x0300c09f, 0x0300c0a0,
  0x0300c0a1, 0x0300c0a2, 0x0300c0a3, 0x0300c0a4, 0x0300c0a5, 0x0300c0a6,
  0x0300c0a7, 0x0300c0a8, 0x0300c0a9, 0x0300c0aa, 0x0300c0ab, 0x0300c0ac,
  0x0300c0ad, 0x0300c0ae, 0x0300c0af, 0x0300c006, 0x0300c008, 0x0300c009,
  0x0300c00a, 0x0300c010, 0x0300c012, 0x0300c013, 0x0300c014, 0x0300c015,
  0x0300c017, 0x0300c018, 0x0300c019, 0x0300c023, 0x0300c024, 0x0300c027,
  0x0300c028, 0x0300c02b, 0x0300c02c, 0x0300c02f, 0x0300c030, 0x0300002c,
  0x0300002d, 0x0300002e, 0x0300008b, 0x0300008c, 0x0300008d, 0x0300008f,
  0x03000090, 0x03000091, 0x03000093, 0x03000094, 0x03000095, 0x030000a8,
  0x030000a9, 0x030000aa, 0x030000ab, 0x030000ac, 0x030000ad, 0x030000ae,
  0x030000af, 0x030000b0, 0x030000b1, 0x030000b2, 0x030000b3, 0x030000b4,
  0x030000b5, 0x030000b6, 0x030000b7, 0x030000b8, 0x030000b9, 0x0300c034,
  0x0300c035, 0x0300c036, 0x0300c037, 0x0300c038, 0x0300c039, 0x0300c03a,
  0x0300c03b, 0x0300c01a, 0x0300c01b, 0x0300c01c, 0x0300c01d, 0x0300c01e,
  0x0300c01f, 0x0300c020, 0x0300c021, 0x0300c022, 0x0300ccaa, 0x0300cca8,
  0x0300cca9, 0x0300ccab, 0x0300ccac, 0x0300ccad, 0x0300ccae, 0x030000ba,
  0x030000bd, 0x030000be, 0x030000bf, 0x030000c0, 0x030000c3, 0x030000c4,
  0x030000c5, 0x03000084, 0x03000087, 0x03000088, 0x03000089, 0x03000041,
  0x03000044, 0x03000045, 0x03000046, 0x0300c072, 0x0300c073, 0x0300c076,
  0x0300c077, 0x0300c094, 0x0300c095, 0x0300c096, 0x0300c097, 0x0300c098,
  0x0300c099, 0x0300c09a, 0x0300c09b, 0x03000081, 0x03000083, 0x0300c102,
  0x0300ff85, 0x0300ff87, 0x0300c100, 0x0300c101, 0x03000007, 0x03000096,
  0x03000099, 0x0300009a, 0x0300009b, 0x03000004, 0x03000005, 0x03000018,
  0x0300c033, 0x0300c016, 0x0300c007, 0x0300c011, 0x0300008a, 0x03000092,
  0x0300008e, 0x0300c050, 0x0300c051, 0x0300c052, 0x0300c053, 0x0300c056,
  0x0300c057, 0x0300c05c, 0x0300c05d, 0x0300c060, 0x0300c061, 0x0300c06a,
  0x0300c06b, 0x0300c06c, 0x0300c06d, 0x0300c06e, 0x0300c06f, 0x0300ff15,
  0x0300ff16, 0x0300ff17, 0x0300ff18, 0x0300ff19, 0x0300ff1a, 0x0300ff1b,
  0x0300ff1c]

/-- Ids of the ssl3_scsvs table (signaling pseudo-suites), in source order. -/
def ssl3_scsv_ids : List Nat := [0x030000ff, 0x03005600]

/-- Insert an id into an id-sorted list; together with sortById this models
qsort with cipher_compare (equal ids compare 0, otherwise numeric order). -/
def insertById (x : Nat) : List Nat → List Nat
  | [] => [x]
  | y :: ys => if x ≤ y then x :: y :: ys else y :: insertById x ys

/-- Sort a table of ids ascending by id (model of one qsort call of
ssl_sort_cipher_list with comparator cipher_compare). -/
def sortById : List Nat → List Nat
  | [] => []
  | x :: xs => insertById x (sortById xs)

/-- The tls13_ciphers table after ssl_sort_cipher_list has run. -/
def tls13_ciphers_sorted : List Nat := sortById tls13_cipher_ids

/-- The ssl3_ciphers table after ssl_sort_cipher_list has run. -/
def ssl3_ciphers_sorted : List Nat := sortById ssl3_cipher_ids

/-- The ssl3_scsvs table after ssl_sort_cipher_list has run. -/
def ssl3_scsvs_sorted : List Nat := sortById ssl3_scsv_ids

/-- Every adjacent pair of the list is strictly increasing. -/
def strictAscending : List Nat → Bool
  | [] => true
  | [_] => true
  | x :: y :: xs => x < y && strictAscending (y :: xs)

/-- SSL3_NUM_CIPHERS: number of entries of the ssl3_ciphers table. -/
def SSL3_NUM_CIPHERS : Nat := ssl3_cipher_ids.length

/-- ssl3_num_ciphers from the source: returns SSL3_NUM_CIPHERS. -/
def ssl3_num_ciphers : Nat := SSL3_NUM_CIPHERS

/-- ssl3_get_cipher from the source: for u < SSL3_NUM_CIPHERS it returns
the table entry at index SSL3_NUM_CIPHERS - 1 - u, otherwise NULL.  At
runtime the global table has been sorted by library initialization, so the
embedding reads the sorted table. -/
def ssl3_get_cipher (u : Nat) : Option Nat :=
  if u < SSL3_NUM_CIPHERS then ssl3_ciphers_sorted.get? (SSL3_NUM_CIPHERS - 1 - u)
  else none

theorem tls13_sorted_ascending : strictAscending tls13_ciphers_sorted = true := by decide

theorem ssl3_sorted_ascending : strictAscending ssl3_ciphers_sorted = true := by decide

theorem scsvs_sorted_ascending : strictAscending ssl3_scsvs_sorted = true := by decide

theorem tls13_ids_nodup : tls13_cipher_ids.Nodup := by decide

theorem ssl3_ids_nodup : ssl3_cipher_ids.Nodup := by decide

theorem scsv_ids_nodup : ssl3_scsv_ids.Nodup := by decide

/-- C8: after the one-time catalog sort, each of the three cipher sub-tables
(TLS-1.3 suites, legacy suites, signaling pseudo-suites) is strictly
ascending by id on every adjacent pair, and no two entries within the same
sub-table share an id. -/
theorem ssl_sort_cipher_list_sorted_unique :
    (strictAscending tls13_ciphers_sorted = true ∧ tls13_cipher_ids.Nodup) ∧
    (strictAscending ssl3_ciphers_sorted = true ∧ ssl3_cipher_ids.Nodup) ∧
    (strictAscending ssl3_scsvs_sorted = true ∧ ssl3_scsv_ids.Nodup) :=
  ⟨⟨tls13_sorted_ascending, tls13_ids_nodup⟩,
   ⟨ssl3_sorted_ascending, ssl3_ids_nodup⟩,
   ⟨scsvs_sorted_ascending, scsv_ids_nodup⟩⟩

/-- In a strictly ascending list, consecutive elements increase. -/
theorem strictAscending_get? :
    ∀ (l : List Nat), strictAscending l = true →
      ∀ i a b, l.get? i = some a → l.get? (i + 1) = some b → a < b := by
  intro l
  induction l with
  | nil => intro _ i a b h1 _; simp at h1
  | cons x xs ih =>
    intro h i a b h1 h2
    cases xs with
    | nil =>
      cases i with
      | zero => simp at h2
      | succ j => simp at h1
    | cons y ys =>
      have hlt : x < y ∧ strictAscending (y :: ys) = true := by
        simpa [strictAscending, Bool.and_eq_true, decide_eq_true_eq] using h
      cases i with
      | zero =>
        have ha : x = a := by simpa using h1
        have hb : y = b := by simpa using h2
        rw [← ha, ← hb]
        exact hlt.1
      | succ j =>
        exact ih hlt.2 j a b (by simpa using h1) (by simpa using h2)

/-- C10: the legacy-table enumeration accessor ssl3_get_cipher returns none
when the index u is at least the table size, and otherwise returns the entry
at position SSL3_NUM_CIPHERS - 1 - u of the sorted legacy table, so it
enumerates the legacy catalog in strictly descending id order. -/
theorem ssl3_get_cipher_spec (u : Nat) :
    (SSL3_NUM_CIPHERS ≤ u → ssl3_get_cipher u = none) ∧
    (u < SSL3_NUM_CIPHERS →
      ssl3_get_cipher u = ssl3_ciphers_sorted.get? (SSL3_NUM_CIPHERS - 1 - u)) ∧
    (u + 1 < SSL3_NUM_CIPHERS → ∀ a b,
      ssl3_get_cipher u = some a → ssl3_get_cipher (u + 1) = some b → b < a) := by
  refine ⟨?_, ?_, ?_⟩
  · intro h
    simp [ssl3_get_cipher, Nat.not_lt.mpr h]
  · intro h
    simp [ssl3_get_cipher, h]
  · intro h a b ha hb
    have hu : u < SSL3_NUM_CIPHERS := Nat.lt_of_succ_lt h
    have ha' : ssl3_ciphers_sorted.get? (SSL3_NUM_CIPHERS - 1 - u) = some a := by
      simpa [ssl3_get_cipher, hu] using ha
    have hb' : ssl3_ciphers_sorted.get? (SSL3_NUM_CIPHERS - 1 - (u + 1)) = some b := by
      simpa [ssl3_get_cipher, h] using hb
    have hidx : SSL3_NUM_CIPHERS - 1 - (u + 1) + 1 = SSL3_NUM_CIPHERS - 1 - u := by
      omega
    exact strictAscending_get? ssl3_ciphers_sorted ssl3_sorted_ascending
      (SSL3_NUM_CIPHERS - 1 - (u + 1)) b a hb' (by rw [hidx]; exact ha')

/-- Witness for C10: at index 199 the accessor is none; at index 0 it reads
position 198 of the sorted table; indices 0 and 1 yield descending ids
(0x0300ff87 then 0x0300ff85). -/
theorem ssl3_get_cipher_spec_witness :
    ssl3_get_cipher 199 = none ∧
    ssl3_get_cipher 0 = ssl3_ciphers_sorted.get? (SSL3_NUM_CIPHERS - 1 - 0) ∧
    (0x0300ff85 : Nat) < 0x0300ff87 :=
  ⟨(ssl3_get_cipher_spec 199).1 (by decide),
   (ssl3_get_cipher_spec 0).2.1 (by decide),
   (ssl3_get_cipher_spec 0).2.2 (by decide) 0x0300ff87 0x0300ff85
     (by decide) (by decide)⟩

/-- Per-connection renegotiation bookkeeping consulted and updated by
ssl3_renegotiate_check: the renegotiate flag, the two counters, the
record-layer pending indicators, the state-machine init status, and whether
the state machine has been put into the renegotiate state. -/
structure RenegState where
  renegotiate : Bool
  num_renegotiations : Nat
  total_renegotiations : Nat
  read_pending : Bool
  write_pending : Bool
  in_init : Bool
  statem_renegotiate : Bool
deriving DecidableEq, Repr

/-- ssl3_renegotiate_check from the source: when the renegotiate flag is set,
no record-layer data is pending in either direction, and either initok holds
or the connection is not in init, it sets the state machine to renegotiate,
clears the flag, bumps both counters and returns 1; otherwise returns 0. -/
def ssl3_renegotiate_check (s : RenegState) (initok : Bool) : Int × RenegState :=
  if s.renegotiate = true then
    if s.read_pending = false ∧ s.write_pending = false ∧
        (initok = true ∨ s.in_init = false) then
      (1, { s with renegotiate := false,
                   num_renegotiations := s.num_renegotiations + 1,
                   total_renegotiations := s.total_renegotiations + 1,
                   statem_renegotiate := true })
    else (0, s)
  else (0, s)

/-- C6: with the renegotiation flag set, no pending record-layer data, and
the caller being the state machine or the connection not mid-handshake,
ssl3_renegotiate_check transitions the state machine, clears the flag,
increments both counters by one and returns 1; under any other condition it
returns 0 and leaves the whole state unchanged. -/
theorem ssl3_renegotiate_check_spec (s : RenegState) (initok : Bool) :
    (s.renegotiate = true → s.read_pending = false → s.write_pending = false →
      (initok = true ∨ s.in_init = false) →
      ssl3_renegotiate_check s initok =
        (1, { s with renegotiate := false,
                     num_renegotiations := s.num_renegotiations + 1,
                     total_renegotiations := s.total_renegotiations + 1,
                     statem_renegotiate := true })) ∧
    ((s.renegotiate = false ∨ s.read_pending = true ∨ s.write_pending = true ∨
        (initok = false ∧ s.in_init = true)) →
      ssl3_renegotiate_check s initok = (0, s)) := by
  constructor
  · intro h1 h2 h3 h4
    simp [ssl3_renegotiate_check, h1, h2, h3, h4]
  · intro h
    unfold ssl3_renegotiate_check
    split_ifs with hr hc
    · exfalso
      rcases h with h | h | h | ⟨h5, h6⟩
      · simp [h] at hr
      · simp [h] at hc
      · simp [h] at hc
      · simp [h5, h6] at hc
    · rfl
    · rfl

/-- Witness for C6: a ready state (flag set, nothing pending, not in init)
triggers with both counters going 3 ↦ 4 and 7 ↦ 8; the same state with
pending read data reports no action and is left unchanged. -/
theorem ssl3_renegotiate_check_spec_witness :
    ssl3_renegotiate_check
        ⟨true, 3, 7, false, false, false, false⟩ false =
      (1, ⟨false, 4, 8, false, false, false, true⟩) ∧
    ssl3_renegotiate_check
        ⟨true, 3, 7, true, false, false, false⟩ false =
      (0, ⟨true, 3, 7, true, false, false, false⟩) :=
  ⟨(ssl3_renegotiate_check_spec ⟨true, 3, 7, false, false, false, false⟩ false).1
      rfl rfl rfl (Or.inr rfl),
   (ssl3_renegotiate_check_spec ⟨true, 3, 7, true, false, false, false⟩ false).2
      (Or.inr (Or.inl rfl))⟩

/-- Library error reasons raised by the embedded control paths. -/
inductive SSLerr where
  | shouldNotHaveBeenCalled
  | invalidTicketKeysLength
deriving DecidableEq, Repr

/-- The context's session-ticket key material: key name, HMAC key and
bulk-cipher (AES) key.  The source reads the three component sizes with
sizeof of fixed-size arrays of the context; the embedding keeps them as the
lengths of the three lists. -/
structure TicketKeys where
  tick_key_name : List Nat
  tick_hmac_key : List Nat
  tick_aes_key : List Nat
deriving DecidableEq, Repr

/-- Result of one ticket-key dispatch of ssl3_ctx_ctrl. -/
structure TicketKeysResult where
  ret : Int
  st : TicketKeys
  out : Option (List Nat)
  raised : Option SSLerr
deriving DecidableEq, Repr

/-- The SSL_CTRL_SET_TLSEXT_TICKET_KEYS / SSL_CTRL_GET_TLSEXT_TICKET_KEYS
case of ssl3_ctx_ctrl: with a NULL caller buffer it returns the required
total length; with a length argument different from that total it raises
SSL_R_INVALID_TICKET_KEYS_LENGTH and returns 0; otherwise set copies key
name, then HMAC key, then AES key out of the caller buffer into the context
and get copies them, in the same order, into the caller buffer; both
return 1. -/
def ssl3_ctx_ctrl_ticket_keys (isSet : Bool) (larg : Int)
    (keys : Option (List Nat)) (st : TicketKeys) : TicketKeysResult :=
  let n1 := st.tick_key_name.length
  let n2 := st.tick_hmac_key.length
  let n3 := st.tick_aes_key.length
  let tick_keylen : Int := (n1 : Int) + n2 + n3
  match keys with
  | none => ⟨tick_keylen, st, none, none⟩
  | some buf =>
    if larg ≠ tick_keylen then ⟨0, st, none, some SSLerr.invalidTicketKeysLength⟩
    else if isSet then
      ⟨1, ⟨buf.take n1, (buf.drop n1).take n2, (buf.drop (n1 + n2)).take n3⟩,
       none, none⟩
    else
      ⟨1, st, some (st.tick_key_name ++ st.tick_hmac_key ++ st.tick_aes_key),
       none⟩

/-- Splitting a buffer of exactly the three component lengths at the
component boundaries and reconcatenating gives the buffer back. -/
theorem take_drop_reassemble (buf : List Nat) (n1 n2 n3 : Nat)
    (h : buf.length = n1 + n2 + n3) :
    buf.take n1 ++ ((buf.drop n1).take n2 ++ (buf.drop (n1 + n2)).take n3) =
      buf := by
  have hdd : buf.drop (n1 + n2) = (buf.drop n1).drop n2 := by
    rw [List.drop_drop, Nat.add_comm]
  have hlen : ((buf.drop n1).drop n2).length ≤ n3 := by
    simp only [List.length_drop, h]
    omega
  have htk : ((buf.drop n1).drop n2).take n3 = (buf.drop n1).drop n2 :=
    List.take_of_length_le hlen
  rw [hdd, htk, List.take_append_drop, List.take_append_drop]

/-- C7: for the context dispatcher's session-ticket-key commands, a get with
no destination buffer returns the required total length; a set or get whose
length argument differs from that total fails with the invalid-length error
and leaves the stored keys unchanged; and a set of the exact length followed
by a get of the exact length returns byte-identical contents in the order
key name, HMAC key, bulk key. -/
theorem ssl3_ctx_ctrl_ticket_keys_spec (st : TicketKeys) (larg : Int)
    (buf : List Nat) :
    (∀ isSet, ssl3_ctx_ctrl_ticket_keys isSet larg none st =
      ⟨(st.tick_key_name.length : Int) + st.tick_hmac_key.length +
        st.tick_aes_key.length, st, none, none⟩) ∧
    (∀ isSet, larg ≠ (st.tick_key_name.length : Int) + st.tick_hmac_key.length +
        st.tick_aes_key.length →
      ssl3_ctx_ctrl_ticket_keys isSet larg (some buf) st =
        ⟨0, st, none, some SSLerr.invalidTicketKeysLength⟩) ∧
    (larg = (st.tick_key_name.length : Int) + st.tick_hmac_key.length +
        st.tick_aes_key.length →
      buf.length = st.tick_key_name.length + st.tick_hmac_key.length +
        st.tick_aes_key.length →
      (ssl3_ctx_ctrl_ticket_keys true larg (some buf) st).ret = 1 ∧
      (ssl3_ctx_ctrl_ticket_keys false larg (some buf)
          (ssl3_ctx_ctrl_ticket_keys true larg (some buf) st).st).out =
        some buf) := by
  refine ⟨?_, ?_, ?_⟩
  · intro isSet
    rfl
  · intro isSet hne
    simp [ssl3_ctx_ctrl_ticket_keys, hne]
  · intro hla hlen
    constructor
    · simp [ssl3_ctx_ctrl_ticket_keys, hla]
    · have h1 : (buf.take st.tick_key_name.length).length =
          st.tick_key_name.length := by
        simp [List.length_take]
        omega
      have h2 : ((buf.drop st.tick_key_name.length).take
          st.tick_hmac_key.length).length = st.tick_hmac_key.length := by
        simp [List.length_take, List.length_drop]
        omega
      have h3 : ((buf.drop (st.tick_key_name.length +
          st.tick_hmac_key.length)).take st.tick_aes_key.length).length =
          st.tick_aes_key.length := by
        simp [List.length_take, List.length_drop]
        omega
      simp only [ssl3_ctx_ctrl_ticket_keys, hla, if_pos, ite_true, ite_false,
        if_neg, not_true, not_false_iff]
      simp [hla, h1, h2, h3]
      exact take_drop_reassemble buf st.tick_key_name.length
        st.tick_hmac_key.length st.tick_aes_key.length hlen

/-- Witness for C7: with stored keys of sizes 2, 1, 3 the required length is
6; length 5 is rejected leaving the keys unchanged; setting the 6-byte blob
9 8 7 6 5 4 and getting it back returns the same bytes. -/
theorem ssl3_ctx_ctrl_ticket_keys_spec_witness :
    (ssl3_ctx_ctrl_ticket_keys false 6 none ⟨[1, 2], [3], [4, 5, 6]⟩ =
      ⟨6, ⟨[1, 2], [3], [4, 5, 6]⟩, none, none⟩) ∧
    (ssl3_ctx_ctrl_ticket_keys true 5 (some [9, 8, 7, 6, 5])
        ⟨[1, 2], [3], [4, 5, 6]⟩ =
      ⟨0, ⟨[1, 2], [3], [4, 5, 6]⟩, none, some SSLerr.invalidTicketKeysLength⟩) ∧
    (ssl3_ctx_ctrl_ticket_keys true 6 (some [9, 8, 7, 6, 5, 4])
        ⟨[1, 2], [3], [4, 5, 6]⟩).ret = 1 ∧
    (ssl3_ctx_ctrl_ticket_keys false 6 (some [9, 8, 7, 6, 5, 4])
        (ssl3_ctx_ctrl_ticket_keys true 6 (some [9, 8, 7, 6, 5, 4])
          ⟨[1, 2], [3], [4, 5, 6]⟩).st).out = some [9, 8, 7, 6, 5, 4] :=
  ⟨(ssl3_ctx_ctrl_ticket_keys_spec ⟨[1, 2], [3], [4, 5, 6]⟩ 6 []).1 false,
   (ssl3_ctx_ctrl_ticket_keys_spec ⟨[1, 2], [3], [4, 5, 6]⟩ 5 [9, 8, 7, 6, 5]).2.1
      true (by decide),
   ((ssl3_ctx_ctrl_ticket_keys_spec ⟨[1, 2], [3], [4, 5, 6]⟩ 6
      [9, 8, 7, 6, 5, 4]).2.2 (by decide) (by decide)).1,
   ((ssl3_ctx_ctrl_ticket_keys_spec ⟨[1, 2], [3], [4, 5, 6]⟩ 6
      [9, 8, 7, 6, 5, 4]).2.2 (by decide) (by decide)).2⟩

/-- Commands dispatched by the two callback-registration entry points. -/
inductive CbCmd where
  | SET_TMP_DH_CB
  | SET_TLSEXT_DEBUG_CB
  | SET_NOT_RESUMABLE_SESS_CB
  | SET_TLSEXT_SERVERNAME_CB
  | SET_TLSEXT_STATUS_REQ_CB
  | SET_TLSEXT_TICKET_KEY_CB
  | SET_SRP_VERIFY_PARAM_CB
  | SET_TLS_EXT_SRP_USERNAME_CB
  | SET_SRP_GIVE_CLIENT_PWD_CB
  | otherCmd
deriving DecidableEq, Repr

/-- Connection-level callback slots written by ssl3_callback_ctrl; the
function-pointer argument type is kept abstract in α. -/
structure SSLCallbackState (α : Type) where
  dh_tmp_cb : Option α
  debug_cb : Option α
  not_resumable_session_cb : Option α

/-- ssl3_callback_ctrl from the source (full-featured deprecated-3.0 build):
SET_TMP_DH_CB stores the callback into cert->dh_tmp_cb and returns 1, as do
the extension-debug and not-resumable registrations for their slots; any
other command returns 0 unchanged. -/
def ssl3_callback_ctrl (α : Type) (s : SSLCallbackState α) (cmd : CbCmd)
    (fp : α) : Int × SSLCallbackState α :=
  match cmd with
  | CbCmd.SET_TMP_DH_CB => (1, { s with dh_tmp_cb := some fp })
  | CbCmd.SET_TLSEXT_DEBUG_CB => (1, { s with debug_cb := some fp })
  | CbCmd.SET_NOT_RESUMABLE_SESS_CB =>
      (1, { s with not_resumable_session_cb := some fp })
  | _ => (0, s)

/-- Context-level callback slots written by ssl3_ctx_callback_ctrl. -/
structure SSLCtxCallbackState (α : Type) where
  dh_tmp_cb : Option α
  servername_cb : Option α
  status_cb : Option α
  ticket_key_cb : Option α
  srp_verify_param_cb : Option α
  srp_username_cb : Option α
  srp_give_client_pwd_cb : Option α
  not_resumable_session_cb : Option α
  srp_mask_kSRP : Bool

/-- ssl3_ctx_callback_ctrl from the source (full-featured build): every
recognized registration, SET_TMP_DH_CB included, stores the callback into
its slot and returns 1 (the SRP ones also turn on the kSRP mask bit);
unknown commands return 0. -/
def ssl3_ctx_callback_ctrl (α : Type) (c : SSLCtxCallbackState α)
    (cmd : CbCmd) (fp : α) : Int × SSLCtxCallbackState α :=
  match cmd with
  | CbCmd.SET_TMP_DH_CB => (1, { c with dh_tmp_cb := some fp })
  | CbCmd.SET_TLSEXT_SERVERNAME_CB => (1, { c with servername_cb := some fp })
  | CbCmd.SET_TLSEXT_STATUS_REQ_CB => (1, { c with status_cb := some fp })
  | CbCmd.SET_TLSEXT_TICKET_KEY_CB => (1, { c with ticket_key_cb := some fp })
  | CbCmd.SET_SRP_VERIFY_PARAM_CB =>
      (1, { c with srp_verify_param_cb := some fp, srp_mask_kSRP := true })
  | CbCmd.SET_TLS_EXT_SRP_USERNAME_CB =>
      (1, { c with srp_username_cb := some fp, srp_mask_kSRP := true })
  | CbCmd.SET_SRP_GIVE_CLIENT_PWD_CB =>
      (1, { c with srp_give_client_pwd_cb := some fp, srp_mask_kSRP := true })
  | CbCmd.SET_NOT_RESUMABLE_SESS_CB =>
      (1, { c with not_resumable_session_cb := some fp })
  | _ => (0, c)

/-- The SSL_CTRL_SET_TMP_DH_CB case of the value-based dispatcher ssl3_ctrl:
it raises ERR_R_SHOULD_NOT_HAVE_BEEN_CALLED and returns 0. -/
def ssl3_ctrl_SET_TMP_DH_CB : Int × Option SSLerr :=
  (0, some SSLerr.shouldNotHaveBeenCalled)

/-- The SSL_CTRL_SET_TMP_DH_CB case of the value-based context dispatcher
ssl3_ctx_ctrl: it raises ERR_R_SHOULD_NOT_HAVE_BEEN_CALLED and returns 0. -/
def ssl3_ctx_ctrl_SET_TMP_DH_CB : Int × Option SSLerr :=
  (0, some SSLerr.shouldNotHaveBeenCalled)

/-- Counterexample to C2: on a fresh connection and a fresh context, the
callback-registration entry points ACCEPT the legacy temporary-DH callback
(return 1 and store it, raising no error), while the value-based dispatcher
path for the same command fails with should-not-be-called — so the
registration is not rejected, contradicting the claim. -/
theorem ssl3_set_tmp_dh_cb_not_rejected :
    ssl3_callback_ctrl Unit ⟨none, none, none⟩ CbCmd.SET_TMP_DH_CB () =
      (1, ⟨some (), none, none⟩) ∧
    ssl3_ctx_callback_ctrl Unit
        ⟨none, none, none, none, none, none, none, none, false⟩
        CbCmd.SET_TMP_DH_CB () =
      (1, ⟨some (), none, none, none, none, none, none, none, false⟩) ∧
    ssl3_ctrl_SET_TMP_DH_CB = (0, some SSLerr.shouldNotHaveBeenCalled) :=
  ⟨rfl, rfl, rfl⟩

/-- C2 as amended: for every connection and context, registering the legacy
temporary-DH callback through ssl3_callback_ctrl or ssl3_ctx_callback_ctrl
succeeds — it stores the callback and returns 1, with no error raised —
while only the SET_TMP_DH_CB paths of the value-based dispatchers ssl3_ctrl
and ssl3_ctx_ctrl are rejected as a distinguishable should-not-be-called
failure. -/
theorem ssl3_set_tmp_dh_cb_dispatch (α : Type) (s : SSLCallbackState α)
    (c : SSLCtxCallbackState α) (fp : α) :
    ssl3_callback_ctrl α s CbCmd.SET_TMP_DH_CB fp =
      (1, { s with dh_tmp_cb := some fp }) ∧
    ssl3_ctx_callback_ctrl α c CbCmd.SET_TMP_DH_CB fp =
      (1, { c with dh_tmp_cb := some fp }) ∧
    ssl3_ctrl_SET_TMP_DH_CB = (0, some SSLerr.shouldNotHaveBeenCalled) ∧
    ssl3_ctx_ctrl_SET_TMP_DH_CB = (0, some SSLerr.shouldNotHaveBeenCalled) :=
  ⟨rfl, rfl, rfl, rfl⟩

/-- The slice of connection state consulted by the group queries of
ssl3_ctrl: the optional session (none models a NULL s->session, carrying
kex_group when present), the TLS-1.3 status, the did-key-exchange flag, the
connection-level negotiated group id, and the peer supported-groups count
used by SSL_CTRL_GET_GROUPS. -/
structure GroupQueryState where
  session_kex_group : Option Nat
  is_tls13 : Bool
  did_kex : Bool
  group_id : Nat
  peer_supportedgroups_len : Nat
deriving DecidableEq, Repr

/-- Outcome of a control dispatch that may dereference a NULL pointer. -/
inductive CtrlResult where
  | ret (v : Int)
  | nullDeref
deriving DecidableEq, Repr

/-- The SSL_CTRL_GET_NEGOTIATED_GROUP case of ssl3_ctrl: for TLS-1.3 with a
completed key exchange it maps s->s3.group_id through tls1_group_id2nid
(kept abstract); otherwise it reads s->session->kex_group with no NULL
check, so with no session the access is a null-pointer dereference. -/
def ssl3_ctrl_GET_NEGOTIATED_GROUP (s : GroupQueryState)
    (group_id2nid : Nat → Int) : CtrlResult :=
  if s.is_tls13 = true ∧ s.did_kex = true then
    CtrlResult.ret (group_id2nid s.group_id)
  else
    match s.session_kex_group with
    | none => CtrlResult.nullDeref
    | some g => CtrlResult.ret (group_id2nid g)

/-- The SSL_CTRL_GET_GROUPS case of ssl3_ctrl: returns 0 when no session
exists, and otherwise the peer supported-groups count (the copy into the
caller array is not modelled). -/
def ssl3_ctrl_GET_GROUPS (s : GroupQueryState) : Int :=
  match s.session_kex_group with
  | none => 0
  | some _ => s.peer_supportedgroups_len

/-- Counterexample to C9: on a connection with no session (and no completed
TLS-1.3 key exchange), the get-negotiated-group command dereferences the
absent session object instead of returning a clean error result; the
neighbouring GET_GROUPS command is the one with the no-session guard. -/
theorem ssl3_get_negotiated_group_null_deref :
    ssl3_ctrl_GET_NEGOTIATED_GROUP ⟨none, false, false, 29, 5⟩ (fun _ => 23) =
      CtrlResult.nullDeref ∧
    ssl3_ctrl_GET_GROUPS ⟨none, false, false, 29, 5⟩ = 0 :=
  ⟨rfl, rfl⟩

/-- C9 as amended: invoking the get-negotiated-group command before any
session exists is NOT guarded — unless the connection is TLS-1.3 with a
completed key exchange, the dispatcher reads the absent session object
(undefined behaviour), whereas the GET_GROUPS query of the same dispatcher
returns 0 as a clean not-ready result when no session exists. -/
theorem ssl3_get_negotiated_group_unguarded (s : GroupQueryState)
    (group_id2nid : Nat → Int) (hs : s.session_kex_group = none)
    (hk : s.is_tls13 = false ∨ s.did_kex = false) :
    ssl3_ctrl_GET_NEGOTIATED_GROUP s group_id2nid = CtrlResult.nullDeref ∧
    ssl3_ctrl_GET_GROUPS s = 0 := by
  have hcond : ¬ (s.is_tls13 = true ∧ s.did_kex = true) := by
    rcases hk with h | h <;> simp [h]
  constructor
  · simp [ssl3_ctrl_GET_NEGOTIATED_GROUP, hcond, hs]
  · simp [ssl3_ctrl_GET_GROUPS, hs]

/-- Witness for the amended C9 at a concrete sessionless connection. -/
theorem ssl3_get_negotiated_group_unguarded_witness :
    ssl3_ctrl_GET_NEGOTIATED_GROUP ⟨none, true, false, 29, 5⟩ (fun _ => 23) =
      CtrlResult.nullDeref ∧
    ssl3_ctrl_GET_GROUPS ⟨none, true, false, 29, 5⟩ = 0 :=
  ssl3_get_negotiated_group_unguarded ⟨none, true, false, 29, 5⟩ (fun _ => 23)
    rfl (Or.inr rfl)

/-- The connection state consulted by ssl3_shutdown: quiet-shutdown mode,
whether the handshake ever started (SSL_in_before), the two shutdown bits
and the pending-alert flag. -/
structure ShutdownState where
  quiet_shutdown : Bool
  in_before : Bool
  sent_shutdown : Bool
  received_shutdown : Bool
  alert_dispatch : Bool
deriving DecidableEq, Repr

/-- Behaviour of the external collaborators during one ssl3_shutdown call:
whether ssl3_send_alert leaves the close-notify alert queued, the return
value of ssl_dispatch_alert and whether it clears the queued alert, and
whether the zero-length drive read observes the peer's close-notify. -/
structure ShutdownOracle where
  send_alert_leaves_queued : Bool
  dispatch_alert_ret : Int
  dispatch_alert_clears : Bool
  read_observes_close_notify : Bool
deriving DecidableEq, Repr

/-- The final check of ssl3_shutdown: 1 when both shutdown bits are set and
no alert is pending, else 0. -/
def shutdownFinal (s : ShutdownState) : Int × ShutdownState :=
  if s.sent_shutdown = true ∧ s.received_shutdown = true ∧
      s.alert_dispatch = false then (1, s)
  else (0, s)

/-- ssl3_shutdown from the source.  Quiet shutdown or a never-started
handshake marks both directions closed and returns 1.  Otherwise: if
close-notify was not yet sent, mark it sent, send it, and return -1
(want-write) if it is still queued; else if an alert is queued, redispatch
and propagate a -1 result; else if the peer's close-notify has not been
observed, drive a zero-length read and return -1 (want-read) if it is still
unobserved; finally return 1 if fully closed with nothing pending, else 0. -/
def ssl3_shutdown (s : ShutdownState) (o : ShutdownOracle) :
    Int × ShutdownState :=
  if s.quiet_shutdown = true ∨ s.in_before = true then
    (1, { s with sent_shutdown := true, received_shutdown := true })
  else if s.sent_shutdown = false then
    let s1 := { s with sent_shutdown := true,
                       alert_dispatch := o.send_alert_leaves_queued }
    if s1.alert_dispatch = true then (-1, s1) else shutdownFinal s1
  else if s.alert_dispatch = true then
    let s1 := { s with alert_dispatch := !o.dispatch_alert_clears }
    if o.dispatch_alert_ret = -1 then (-1, s1) else shutdownFinal s1
  else if s.received_shutdown = false then
    let s1 := { s with received_shutdown := o.read_observes_close_notify }
    if s1.received_shutdown = false then (-1, s1) else shutdownFinal s1
  else shutdownFinal s

/-- Counterexample to C5: the would-block-on-write outcome (close-notify
still queued after sending) and the would-block-on-read outcome (peer's
close-notify still unobserved after the drive read) are both reported as
the same return value -1, so the caller cannot tell the direction from the
result. -/
theorem ssl3_shutdown_same_block_indicator :
    (ssl3_shutdown ⟨false, false, false, false, false⟩
        ⟨true, 0, false, false⟩).1 = -1 ∧
    (ssl3_shutdown ⟨false, false, true, false, false⟩
        ⟨false, 0, false, false⟩).1 = -1 :=
  ⟨rfl, rfl⟩

/-- C5 as amended: ssl3_shutdown signals both would-block directions with
one and the same indicator -1 — distinct from success (1) and from the
not-yet-complete result (0) — so the return value alone does not identify
which direction to wait on. -/
theorem ssl3_shutdown_returns (s : ShutdownState) (o : ShutdownOracle) :
    (s.quiet_shutdown = false → s.in_before = false → s.sent_shutdown = false →
      o.send_alert_leaves_queued = true → (ssl3_shutdown s o).1 = -1) ∧
    (s.quiet_shutdown = false → s.in_before = false → s.sent_shutdown = true →
      s.alert_dispatch = false → s.received_shutdown = false →
      o.read_observes_close_notify = false → (ssl3_shutdown s o).1 = -1) ∧
    (s.quiet_shutdown = false → s.in_before = false → s.sent_shutdown = true →
      s.alert_dispatch = false → s.received_shutdown = true →
      (ssl3_shutdown s o).1 = 1) ∧
    (s.quiet_shutdown = false → s.in_before = false → s.sent_shutdown = true →
      s.alert_dispatch = true → o.dispatch_alert_ret ≠ -1 →
      o.dispatch_alert_clears = false → (ssl3_shutdown s o).1 = 0) := by
  refine ⟨?_, ?_, ?_, ?_⟩
  · intro h1 h2 h3 h4
    simp [ssl3_shutdown, h1, h2, h3, h4]
  · intro h1 h2 h3 h4 h5 h6
    simp [ssl3_shutdown, h1, h2, h3, h4, h5, h6]
  · intro h1 h2 h3 h4 h5
    simp [ssl3_shutdown, shutdownFinal, h1, h2, h3, h4, h5]
  · intro h1 h2 h3 h4 h5 h6
    simp [ssl3_shutdown, shutdownFinal, h1, h2, h3, h4, h5, h6]

/-- Witness for the amended C5: concrete states exercising the want-write,
want-read, success and not-yet-complete returns. -/
theorem ssl3_shutdown_returns_witness :
    (ssl3_shutdown ⟨false, false, false, false, false⟩
        ⟨true, 0, false, false⟩).1 = -1 ∧
    (ssl3_shutdown ⟨false, false, true, false, false⟩
        ⟨false, 0, false, false⟩).1 = -1 ∧
    (ssl3_shutdown ⟨false, false, true, true, false⟩
        ⟨false, 0, false, false⟩).1 = 1 ∧
    (ssl3_shutdown ⟨false, false, true, false, true⟩
        ⟨false, 0, false, false⟩).1 = 0 :=
  ⟨(ssl3_shutdown_returns ⟨false, false, false, false, false⟩
      ⟨true, 0, false, false⟩).1 rfl rfl rfl rfl,
   (ssl3_shutdown_returns ⟨false, false, true, false, false⟩
      ⟨false, 0, false, false⟩).2.1 rfl rfl rfl rfl rfl rfl,
   (ssl3_shutdown_returns ⟨false, false, true, true, false⟩
      ⟨false, 0, false, false⟩).2.2.1 rfl rfl rfl rfl rfl,
   (ssl3_shutdown_returns ⟨false, false, true, false, true⟩
      ⟨false, 0, false, false⟩).2.2.2 rfl rfl rfl rfl (by decide) rfl⟩

/-- The tls11downgrade sentinel from the source: last-8-bytes marker meaning
downgrade to TLS-1.1 or below. -/
def tls11downgrade : List Nat := [0x44, 0x4f, 0x57, 0x4e, 0x47, 0x52, 0x44, 0x00]

/-- The tls12downgrade sentinel from the source: last-8-bytes marker meaning
downgrade to TLS-1.2. -/
def tls12downgrade : List Nat := [0x44, 0x4f, 0x57, 0x4e, 0x47, 0x52, 0x44, 0x01]

/-- The DOWNGRADE argument of ssl_fill_hello_random. -/
inductive DOWNGRADE where
  | NONE
  | TO_1_2
  | TO_1_1
deriving DecidableEq, Repr

/-- l2n: store a 32-bit value as 4 big-endian bytes. -/
def l2n (t : Nat) : List Nat :=
  [t % 2 ^ 32 / 2 ^ 24, t % 2 ^ 24 / 2 ^ 16, t % 2 ^ 16 / 2 ^ 8, t % 2 ^ 8]

/-- The timestamp/random fill that ssl_fill_hello_random produces before any
downgrade sentinel: with the wall-clock mode bit of the caller's role set, a
4-byte big-endian timestamp followed by len - 4 random bytes, otherwise len
random bytes. -/
def hello_fill (server send_servertime send_clienttime : Bool) (time : Nat)
    (rand : Nat → List Nat) (len : Nat) : List Nat :=
  if (if server = true then send_servertime else send_clienttime) = true then
    l2n time ++ rand (len - 4)
  else rand len

/-- ssl_fill_hello_random from the source.  Fails for len < 4.  Produces the
hello_fill bytes; the random source result is the oracle rand_ok
(RAND_bytes_ex).  On a successful fill it asserts 8 < len (failing
otherwise) and then overwrites the last 8 bytes with tls12downgrade for
DOWNGRADE_TO_1_2, with tls11downgrade for DOWNGRADE_TO_1_1, and leaves the
buffer untouched for no downgrade.  Returns the RAND result (1 success, 0
failure) paired with the final buffer contents. -/
def ssl_fill_hello_random (server : Bool)
    (send_servertime send_clienttime : Bool) (time : Nat)
    (rand : Nat → List Nat) (rand_ok : Bool) (len : Nat) (dgrd : DOWNGRADE) :
    Int × List Nat :=
  if len < 4 then (0, [])
  else
    let buf := hello_fill server send_servertime send_clienttime time rand len
    let ret : Int := if rand_ok = true then 1 else 0
    if ret > 0 then
      if ¬ (8 < len) then (0, buf)
      else
        match dgrd with
        | DOWNGRADE.TO_1_2 => (ret, buf.take (len - 8) ++ tls12downgrade)
        | DOWNGRADE.TO_1_1 => (ret, buf.take (len - 8) ++ tls11downgrade)
        | DOWNGRADE.NONE => (ret, buf)
    else (ret, buf)

/-- Dropping the length of the left list of an append yields the right
list. -/
theorem drop_append_of_length (l1 l2 : List Nat) (n : Nat)
    (h : l1.length = n) : (l1 ++ l2).drop n = l2 := by
  subst h
  exact List.drop_left l1 l2

/-- C4: ssl_fill_hello_random fails for len < 4; on a successful fill with
len > 8 the last 8 bytes are exactly 44 4F 57 4E 47 52 44 01 for a
downgrade-to-TLS1.2 marker and exactly 44 4F 57 4E 47 52 44 00 for a
downgrade-to-TLS1.1-or-below marker, while with no downgrade requested the
buffer is exactly the timestamp/random fill with no sentinel written. -/
theorem ssl_fill_hello_random_spec (server send_servertime send_clienttime :
    Bool) (time : Nat) (rand : Nat → List Nat) (rand_ok : Bool) (len : Nat)
    (dgrd : DOWNGRADE) (hrand : ∀ n, (rand n).length = n) :
    (len < 4 → ssl_fill_hello_random server send_servertime send_clienttime
        time rand rand_ok len dgrd = (0, [])) ∧
    (8 < len → rand_ok = true →
      (ssl_fill_hello_random server send_servertime send_clienttime time rand
          rand_ok len dgrd).1 = 1 ∧
      (dgrd = DOWNGRADE.TO_1_2 →
        (ssl_fill_hello_random server send_servertime send_clienttime time
            rand rand_ok len dgrd).2.drop (len - 8) = tls12downgrade) ∧
      (dgrd = DOWNGRADE.TO_1_1 →
        (ssl_fill_hello_random server send_servertime send_clienttime time
            rand rand_ok len dgrd).2.drop (len - 8) = tls11downgrade) ∧
      (dgrd = DOWNGRADE.NONE →
        (ssl_fill_hello_random server send_servertime send_clienttime time
            rand rand_ok len dgrd).2 =
          hello_fill server send_servertime send_clienttime time rand len)) := by
  constructor
  · intro h
    simp [ssl_fill_hello_random, h]
  · intro hlen hok
    have h4 : ¬ len < 4 := by omega
    have h8 : ¬ ¬ 8 < len := by omega
    have hbuflen : (hello_fill server send_servertime send_clienttime time
        rand len).length = len := by
      unfold hello_fill
      by_cases hst : (if server = true then send_servertime
          else send_clienttime) = true
      · rw [if_pos hst, List.length_append, hrand]
        have : (l2n time).length = 4 := rfl
        rw [this]
        omega
      · rw [if_neg hst]
        exact hrand len
    have htake : ((hello_fill server send_servertime send_clienttime time
        rand len).take (len - 8)).length = len - 8 := by
      rw [List.length_take, hbuflen]
      omega
    refine ⟨?_, ?_, ?_, ?_⟩
    · cases dgrd <;> simp [ssl_fill_hello_random, h4, h8, hok]
    · intro hd
      subst hd
      have hres : ssl_fill_hello_random server send_servertime send_clienttime
          time rand rand_ok len DOWNGRADE.TO_1_2 =
          (1, (hello_fill server send_servertime send_clienttime time rand
            len).take (len - 8) ++ tls12downgrade) := by
        simp [ssl_fill_hello_random, h4, h8, hok]
      rw [hres]
      exact drop_append_of_length _ _ _ htake
    · intro hd
      subst hd
      have hres : ssl_fill_hello_random server send_servertime send_clienttime
          time rand rand_ok len DOWNGRADE.TO_1_1 =
          (1, (hello_fill server send_servertime send_clienttime time rand
            len).take (len - 8) ++ tls11downgrade) := by
        simp [ssl_fill_hello_random, h4, h8, hok]
      rw [hres]
      exact drop_append_of_length _ _ _ htake
    · intro hd
      subst hd
      simp [ssl_fill_hello_random, h4, h8, hok]

/-- Witness for C4 at len 32 with a constant random source: length 3 fails;
a TLS1.2-downgrade fill ends in the 44 4F 57 4E 47 52 44 01 sentinel, a
TLS1.1 one in 44 4F 57 4E 47 52 44 00, and a no-downgrade fill is exactly
the 32 random bytes. -/
theorem ssl_fill_hello_random_spec_witness :
    ssl_fill_hello_random false false false 0 (fun n => List.replicate n 7)
        true 3 DOWNGRADE.NONE = (0, []) ∧
    (ssl_fill_hello_random false false false 0 (fun n => List.replicate n 7)
        true 32 DOWNGRADE.TO_1_2).2.drop 24 = tls12downgrade ∧
    (ssl_fill_hello_random false false false 0 (fun n => List.replicate n 7)
        true 32 DOWNGRADE.TO_1_1).2.drop 24 = tls11downgrade ∧
    (ssl_fill_hello_random false false false 0 (fun n => List.replicate n 7)
        true 32 DOWNGRADE.NONE).2 =
      hello_fill false false false 0 (fun n => List.replicate n 7) 32 :=
  ⟨(ssl_fill_hello_random_spec false false false 0
      (fun n => List.replicate n 7) true 3 DOWNGRADE.NONE
      (fun n => by simp)).1 (by decide),
   ((ssl_fill_hello_random_spec false false false 0
      (fun n => List.replicate n 7) true 32 DOWNGRADE.TO_1_2
      (fun n => by simp)).2 (by decide) rfl).2.1 rfl,
   ((ssl_fill_hello_random_spec false false false 0
      (fun n => List.replicate n 7) true 32 DOWNGRADE.TO_1_1
      (fun n => by simp)).2 (by decide) rfl).2.2.1 rfl,
   ((ssl_fill_hello_random_spec false false false 0
      (fun n => List.replicate n 7) true 32 DOWNGRADE.NONE
      (fun n => by simp)).2 (by decide) rfl).2.2.2 rfl⟩

/-- Key-exchange bitmask bits.  Modelled from the spec: these enumerated
bitmask constants live in the library's internal header, which is not part
of the supplied source; only their being distinct bits matters to the
properties proved here. -/
def SSL_kRSA : Nat := 0x1

/-- Ephemeral finite-field DH key exchange bit. -/
def SSL_kDHE : Nat := 0x2

/-- Ephemeral elliptic-curve DH key exchange bit. -/
def SSL_kECDHE : Nat := 0x4

/-- Pure pre-shared-key key exchange bit. -/
def SSL_kPSK : Nat := 0x8

/-- GOST key exchange bit. -/
def SSL_kGOST : Nat := 0x10

/-- SRP key exchange bit. -/
def SSL_kSRP : Nat := 0x20

/-- RSA-wrapped PSK key exchange bit. -/
def SSL_kRSAPSK : Nat := 0x40

/-- ECDHE PSK key exchange bit. -/
def SSL_kECDHEPSK : Nat := 0x80

/-- DHE PSK key exchange bit. -/
def SSL_kDHEPSK : Nat := 0x100

/-- TLS-1.3 any key exchange. -/
def SSL_kANY : Nat := 0x0

/-- SSL_PSK: mask of every PSK-family key exchange. -/
def SSL_PSK : Nat := SSL_kPSK ||| SSL_kRSAPSK ||| SSL_kECDHEPSK ||| SSL_kDHEPSK

/-- Authentication bitmask bits, modelled like the key-exchange bits. -/
def SSL_aRSA : Nat := 0x1

/-- DSS authentication bit. -/
def SSL_aDSS : Nat := 0x2

/-- Anonymous (no authentication) bit. -/
def SSL_aNULL : Nat := 0x4

/-- ECDSA authentication bit. -/
def SSL_aECDSA : Nat := 0x8

/-- PSK authentication bit. -/
def SSL_aPSK : Nat := 0x10

/-- SRP authentication bit. -/
def SSL_aSRP : Nat := 0x40

/-- TLS-1.3 any authentication. -/
def SSL_aANY : Nat := 0x0

/-- ChaCha20-Poly1305 bulk-cipher selector (the one algorithm_enc value the
negotiation algorithm compares against). -/
def SSL_CHACHA20POLY1305 : Nat := 0x10000

/-- s2n: store a 16-bit length as 2 big-endian bytes. -/
def s2n (n : Nat) : List Nat := [n / 2 ^ 8 % 256, n % 256]

/-- The connection fields read and written by ssl_generate_master_secret:
the negotiated suite's key-exchange mask, the stored PSK bytes
(s->s3.tmp.psk, whose length is s->s3.tmp.psklen), the server flag, and the
stored premaster reference s->s3.tmp.pms. -/
structure MasterSecretConn where
  algorithm_mkey : Nat
  psk : List Nat
  server : Bool
  tmp_pms : Option (List Nat)
deriving DecidableEq, Repr

/-- Result of ssl_generate_master_secret: the return flag, the exact buffer
handed to the protocol's master-secret KDF (the generate_master_secret
member of the method's enc data, external to this component), and the
connection fields after the call. -/
structure GenMSResult where
  ret : Int
  kdf_input : Option (List Nat)
  psk : List Nat
  psklen : Nat
  tmp_pms : Option (List Nat)
deriving DecidableEq, Repr

/-- The other_secret length of the PSK premaster construction: for a pure
PSK suite the premaster length is replaced by the PSK length (the line
pmslen = psklen of the source). -/
def psk_other_secret_len (s : MasterSecretConn) (pmslen : Nat) : Nat :=
  if s.algorithm_mkey &&& SSL_kPSK ≠ 0 then s.psk.length else pmslen

/-- ssl_generate_master_secret from the source.  For a PSK-family suite it
builds the buffer: 2-byte big-endian other_secret length, other_secret
(psklen zero bytes for pure PSK, else the premaster bytes), 2-byte
big-endian PSK length, PSK bytes; clears the stored PSK (to NULL, length 0)
and runs the KDF over that buffer.  Otherwise it runs the KDF directly over
the premaster.  In all cases the premaster is securely erased (freed or
cleansed in place per free_pms) and on the client the stored premaster
reference and length are cleared.  kdf_ok is the external KDF success. -/
def ssl_generate_master_secret (s : MasterSecretConn) (pms : List Nat)
    (pmslen : Nat) (free_pms : Bool) (kdf_ok : Bool) : GenMSResult :=
  let alg_k := s.algorithm_mkey
  let ret : Int := if kdf_ok = true then 1 else 0
  if alg_k &&& SSL_PSK ≠ 0 then
    let psklen := s.psk.length
    let pmslen1 := psk_other_secret_len s pmslen
    let other := if alg_k &&& SSL_kPSK ≠ 0 then List.replicate pmslen1 0
                 else pms.take pmslen1
    let pskpms := s2n pmslen1 ++ other ++ s2n psklen ++ s.psk
    { ret := ret, kdf_input := some pskpms, psk := [], psklen := 0,
      tmp_pms := if s.server = false then none else s.tmp_pms }
  else
    { ret := ret, kdf_input := some (pms.take pmslen), psk := s.psk,
      psklen := s.psk.length,
      tmp_pms := if s.server = false then none else s.tmp_pms }

/-- C3: for a PSK-family key exchange the classic master-secret generation
invokes the KDF over a buffer of exactly 2 + N + 2 + M bytes laid out as a
2-byte big-endian length, the N-byte other_secret (N zero bytes for pure
PSK, else the premaster bytes), a 2-byte big-endian length, and the M-byte
stored PSK; and afterwards the stored PSK is cleared to length zero. -/
theorem ssl_generate_master_secret_psk_spec (s : MasterSecretConn)
    (pms : List Nat) (pmslen : Nat) (free_pms kdf_ok : Bool)
    (hpsk : s.algorithm_mkey &&& SSL_PSK ≠ 0)
    (hlen : pmslen = pms.length)
    (hN : psk_other_secret_len s pmslen < 65536)
    (hM : s.psk.length < 65536) :
    (ssl_generate_master_secret s pms pmslen free_pms kdf_ok).kdf_input =
      some ([psk_other_secret_len s pmslen / 256,
             psk_other_secret_len s pmslen % 256] ++
        (if s.algorithm_mkey &&& SSL_kPSK ≠ 0 then
          List.replicate (psk_other_secret_len s pmslen) 0
         else pms.take (psk_other_secret_len s pmslen)) ++
        [s.psk.length / 256, s.psk.length % 256] ++ s.psk) ∧
    (∀ l, (ssl_generate_master_secret s pms pmslen free_pms kdf_ok).kdf_input
        = some l →
      l.length = 2 + psk_other_secret_len s pmslen + 2 + s.psk.length) ∧
    (ssl_generate_master_secret s pms pmslen free_pms kdf_ok).psk = [] ∧
    (ssl_generate_master_secret s pms pmslen free_pms kdf_ok).psklen = 0 := by
  have e1 : psk_other_secret_len s pmslen / 2 ^ 8 % 256 =
      psk_other_secret_len s pmslen / 256 := by
    have hd : psk_other_secret_len s pmslen / 256 < 256 :=
      (Nat.div_lt_iff_lt_mul (by norm_num)).mpr (by omega)
    simpa using Nat.mod_eq_of_lt hd
  have e2 : s.psk.length / 2 ^ 8 % 256 = s.psk.length / 256 := by
    have hd : s.psk.length / 256 < 256 :=
      (Nat.div_lt_iff_lt_mul (by norm_num)).mpr (by omega)
    simpa using Nat.mod_eq_of_lt hd
  have hkdf : (ssl_generate_master_secret s pms pmslen free_pms
      kdf_ok).kdf_input =
      some ([psk_other_secret_len s pmslen / 256,
             psk_other_secret_len s pmslen % 256] ++
        (if s.algorithm_mkey &&& SSL_kPSK ≠ 0 then
          List.replicate (psk_other_secret_len s pmslen) 0
         else pms.take (psk_other_secret_len s pmslen)) ++
        [s.psk.length / 256, s.psk.length % 256] ++ s.psk) := by
    simp [ssl_generate_master_secret, hpsk, s2n, e1, e2, List.append_assoc]
    exact ⟨(Nat.div_lt_iff_lt_mul (by norm_num)).mpr (by omega),
      (Nat.div_lt_iff_lt_mul (by norm_num)).mpr (by omega)⟩
  refine ⟨hkdf, ?_, ?_, ?_⟩
  · intro l hl
    rw [hkdf] at hl
    have hleq := Option.some.inj hl
    subst hleq
    by_cases hk : s.algorithm_mkey &&& SSL_kPSK ≠ 0
    · simp [hk, List.length_append]
      omega
    · simp [hk, List.length_append, List.length_take, psk_other_secret_len,
        hlen]
      omega
  · simp [ssl_generate_master_secret, hpsk]
  · simp [ssl_generate_master_secret, hpsk]

/-- Witness for C3: a pure-PSK suite with a 3-byte stored PSK and an empty
premaster feeds the KDF the 10-byte buffer 00 03 00 00 00 00 03 AA BB CC
(2 + 3 + 2 + 3 bytes) and clears the stored PSK. -/
theorem ssl_generate_master_secret_psk_spec_witness :
    (ssl_generate_master_secret ⟨SSL_kPSK, [0xAA, 0xBB, 0xCC], false, none⟩
        [] 0 false true).kdf_input =
      some [0, 3, 0, 0, 0, 0, 3, 0xAA, 0xBB, 0xCC] ∧
    (ssl_generate_master_secret ⟨SSL_kPSK, [0xAA, 0xBB, 0xCC], false, none⟩
        [] 0 false true).psk = [] ∧
    (ssl_generate_master_secret ⟨SSL_kPSK, [0xAA, 0xBB, 0xCC], false, none⟩
        [] 0 false true).psklen = 0 := by
  have h := ssl_generate_master_secret_psk_spec
    ⟨SSL_kPSK, [0xAA, 0xBB, 0xCC], false, none⟩ [] 0 false true
    (by decide) (by decide) (by decide) (by decide)
  refine ⟨?_, h.2.2.1, h.2.2.2⟩
  rw [h.1]
  rfl

/-- DTLS1_BAD_VER (public header value). -/
def DTLS1_BAD_VER : Nat := 0x0100

/-- Ordinal for DTLS version comparison.  Modelled from the spec: DTLS
versions are encoded so that a numerically larger stored value means an
older protocol, with the pre-standard DTLS1_BAD_VER mapped to count oldest;
the comparison macros live in the internal header, outside the supplied
source. -/
def dtls_ver_ordinal (v : Nat) : Nat :=
  if v = DTLS1_BAD_VER then 0xff00 else v

/-- DTLS_VERSION_LT: v1 denotes an older protocol than v2. -/
def DTLS_VERSION_LT (v1 v2 : Nat) : Bool :=
  decide (dtls_ver_ordinal v1 > dtls_ver_ordinal v2)

/-- DTLS_VERSION_GT: v1 denotes a newer protocol than v2. -/
def DTLS_VERSION_GT (v1 v2 : Nat) : Bool :=
  decide (dtls_ver_ordinal v1 < dtls_ver_ordinal v2)

/-- The SSL_CIPHER fields consulted by the negotiation algorithm. -/
structure SSL_CIPHER where
  id : Nat
  algorithm_mkey : Nat
  algorithm_auth : Nat
  algorithm_enc : Nat
  algorithm2 : Nat
  min_tls : Nat
  max_tls : Nat
  min_dtls : Nat
  max_dtls : Nat
  strength_bits : Nat
deriving DecidableEq, Repr

/-- The connection state and external collaborators consulted by
ssl3_choose_cipher: the Suite-B mode, the two relevant option bits, the
protocol flavour and version, the legacy PSK server callback, certificate
availability (for the TLS-1.3 SHA-256 PSK bias), the capability masks as
recomputed by ssl_set_masks, the SRP mask bit, the probably-buggy-client
flag, and the external predicates tls1_check_ec_tmp_key, ssl_security
(SSL_SECOP_CIPHER_SHARED) and the SHA-256 test of the suite's handshake
digest. -/
structure ChooseState where
  suiteb : Bool
  opt_server_preference : Bool
  opt_prioritize_chacha : Bool
  is_tls13 : Bool
  is_dtls : Bool
  version : Nat
  psk_server_callback : Bool
  has_cert : Bool
  mask_k : Nat
  mask_a : Nat
  srp_mask_kSRP : Bool
  is_probably_safari : Bool
  check_ec_tmp_key : Nat → Bool
  security_shared : SSL_CIPHER → Bool
  md_is_sha256 : Nat → Bool

/-- The protocol-version filter of the candidate loop: a suite is skipped
when the connection's version lies outside its TLS range (plain comparison)
or its DTLS range (dedicated DTLS comparison) per transport. -/
def version_excluded (s : ChooseState) (c : SSL_CIPHER) : Bool :=
  if s.is_dtls = false then
    decide (s.version < c.min_tls) || decide (s.version > c.max_tls)
  else
    DTLS_VERSION_LT s.version c.min_dtls || DTLS_VERSION_GT s.version c.max_dtls

/-- The pre-TLS-1.3 capability filter of the candidate loop: PSK suites
need the PSK server callback; the suite's key-exchange and authentication
bits must be present in the masks (widened by SRP when configured); and an
ephemeral-EC suite additionally needs a usable temporary EC key.  In
TLS 1.3 the filter admits everything. -/
def capability_excluded (s : ChooseState) (c : SSL_CIPHER) : Bool :=
  if s.is_tls13 = true then false
  else
    let mask_k := s.mask_k ||| (if s.srp_mask_kSRP = true then SSL_kSRP else 0)
    let mask_a := s.mask_a ||| (if s.srp_mask_kSRP = true then SSL_aSRP else 0)
    let alg_k := c.algorithm_mkey
    let alg_a := c.algorithm_auth
    if alg_k &&& SSL_PSK ≠ 0 ∧ s.psk_server_callback = false then true
    else
      let ok := decide (alg_k &&& mask_k ≠ 0) && decide (alg_a &&& mask_a ≠ 0)
      let ok := if alg_k &&& SSL_kECDHE ≠ 0 then ok && s.check_ec_tmp_key c.id
                else ok
      !ok

/-- The candidate loop of ssl3_choose_cipher over the priority list, with
ret the remembered fallback of the Safari and prefer-SHA256 rules.  The
find in the allow list is by equality; alg_k/alg_a are zero in TLS 1.3
(they are only assigned on the pre-1.3 path), so the Safari rule is
pre-1.3 only. -/
def choose_cipher_loop (s : ChooseState) (allow : List SSL_CIPHER)
    (prefer_sha256 : Bool) : List SSL_CIPHER → Option SSL_CIPHER →
    Option SSL_CIPHER
  | [], ret => ret
  | c :: rest, ret =>
    if version_excluded s c = true then
      choose_cipher_loop s allow prefer_sha256 rest ret
    else if capability_excluded s c = true then
      choose_cipher_loop s allow prefer_sha256 rest ret
    else
      match allow.find? (fun x => x == c) with
      | none => choose_cipher_loop s allow prefer_sha256 rest ret
      | some cc =>
        if s.security_shared c = false then
          choose_cipher_loop s allow prefer_sha256 rest ret
        else if (if s.is_tls13 = true then (0 : Nat) else c.algorithm_mkey)
              &&& SSL_kECDHE ≠ 0 ∧
            (if s.is_tls13 = true then (0 : Nat) else c.algorithm_auth)
              &&& SSL_aECDSA ≠ 0 ∧
            s.is_probably_safari = true then
          choose_cipher_loop s allow prefer_sha256 rest
            (if ret = none then some cc else ret)
        else if prefer_sha256 = true then
          if s.md_is_sha256 cc.algorithm2 = true then some cc
          else choose_cipher_loop s allow prefer_sha256 rest
            (if ret = none then some cc else ret)
        else some cc

/-- The temporary ChaCha reordering of the server list built under
SSL_OP_PRIORITIZE_CHACHA: all ChaCha20-Poly1305 suites first (starting from
the first one found, preserving relative order), then all the others. -/
def chacha_reordered (srvr : List SSL_CIPHER) : List SSL_CIPHER :=
  srvr.filter (fun c => c.algorithm_enc == SSL_CHACHA20POLY1305) ++
    srvr.filter (fun c => !(c.algorithm_enc == SSL_CHACHA20POLY1305))

/-- ssl3_choose_cipher from the source.  Suite-B makes the server's list the
priority list and the client's the allow list; otherwise the
prefer-local-order option does the same (with the optional temporary ChaCha
reordering of the server list when the client's first offer is ChaCha and
the server has a ChaCha suite); otherwise the client's list is priority and
the server's allow.  The prefer-SHA256 PSK bias applies in TLS 1.3 when a
legacy PSK server callback is set and no certificate is configured. -/
def ssl3_choose_cipher (s : ChooseState) (clnt srvr : List SSL_CIPHER) :
    Option SSL_CIPHER :=
  let prefer_sha256 : Bool :=
    s.is_tls13 && s.psk_server_callback && !s.has_cert
  if s.suiteb = true then
    choose_cipher_loop s clnt prefer_sha256 srvr none
  else if s.opt_server_preference = true then
    let clientFirstChacha : Bool :=
      match clnt.head? with
      | some c0 => c0.algorithm_enc == SSL_CHACHA20POLY1305
      | none => false
    let serverHasChacha : Bool :=
      srvr.any (fun c => c.algorithm_enc == SSL_CHACHA20POLY1305)
    let prio :=
      if s.opt_prioritize_chacha && clientFirstChacha && serverHasChacha then
        chacha_reordered srvr
      else srvr
    choose_cipher_loop s clnt prefer_sha256 prio none
  else
    choose_cipher_loop s srvr prefer_sha256 clnt none

/-- Specification-side filter of claim C1: the candidate passes the
version filter, the capability filter, is found in the allow list by
equality, and is accepted by the security policy. -/
def claim_passes_filters (s : ChooseState) (allow : List SSL_CIPHER)
    (c : SSL_CIPHER) : Bool :=
  !(version_excluded s c) && !(capability_excluded s c) &&
    (allow.find? (fun x => x == c)).isSome && s.security_shared c

/-- Specification-side negotiation of claim C1: the first candidate of the
client's list, in its given order, that passes all filters. -/
def claim_first_match (s : ChooseState) (clnt srvr : List SSL_CIPHER) :
    Option SSL_CIPHER :=
  clnt.find? (claim_passes_filters s srvr)

/-- With the Safari flag clear and no SHA-256 PSK bias, the candidate loop
returns the first priority-list entry passing all filters. -/
theorem choose_cipher_loop_no_bias (s : ChooseState) (allow : List SSL_CIPHER)
    (hsafari : s.is_probably_safari = false) :
    ∀ l, choose_cipher_loop s allow false l none =
      l.find? (claim_passes_filters s allow) := by
  intro l
  induction l with
  | nil => rfl
  | cons c rest ih =>
    by_cases hv : version_excluded s c = true
    · have hp : claim_passes_filters s allow c = false := by
        simp [claim_passes_filters, hv]
      rw [List.find?_cons_of_neg _ (by simp [hp]), ← ih]
      simp [choose_cipher_loop, hv]
    · by_cases hc : capability_excluded s c = true
      · have hp : claim_passes_filters s allow c = false := by
          simp [claim_passes_filters, hc]
        rw [List.find?_cons_of_neg _ (by simp [hp]), ← ih]
        simp [choose_cipher_loop, hv, hc]
      · cases hfind : allow.find? (fun x => x == c) with
        | none =>
          have hp : claim_passes_filters s allow c = false := by
            simp [claim_passes_filters, hfind]
          rw [List.find?_cons_of_neg _ (by simp [hp]), ← ih]
          simp [choose_cipher_loop, hv, hc, hfind]
        | some cc =>
          by_cases hsec : s.security_shared c = false
          · have hp : claim_passes_filters s allow c = false := by
              simp [claim_passes_filters, hsec]
            rw [List.find?_cons_of_neg _ (by simp [hp]), ← ih]
            simp [choose_cipher_loop, hv, hc, hfind, hsec]
          · have hsect : s.security_shared c = true := by
              cases h : s.security_shared c
              · exact absurd h hsec
              · rfl
            have hp : claim_passes_filters s allow c = true := by
              simp [claim_passes_filters, hv, hc, hfind, hsect]
            have hbeq := List.find?_some hfind
            have hcc : cc = c := by simpa using hbeq
            rw [List.find?_cons_of_pos _ hp]
            simp [choose_cipher_loop, hv, hc, hfind, hsect, hsafari, hcc]

/-- Connection state of the default (client-priority) configuration used by
the concrete negotiation instances: no Suite-B, no prefer-local-order, RSA
capability bits set, permissive external predicates. -/
def defaultChooseState : ChooseState :=
  { suiteb := false, opt_server_preference := false,
    opt_prioritize_chacha := false, is_tls13 := false, is_dtls := false,
    version := 0x0303, psk_server_callback := false, has_cert := true,
    mask_k := SSL_kRSA, mask_a := SSL_aRSA, srp_mask_kSRP := false,
    is_probably_safari := false, check_ec_tmp_key := fun _ => true,
    security_shared := fun _ => true, md_is_sha256 := fun _ => false }

/-- Candidate A: TLS_RSA_WITH_AES_128_CBC_SHA. -/
def cipherA : SSL_CIPHER :=
  ⟨0x0300002f, SSL_kRSA, SSL_aRSA, 0, 0, 0x0301, 0x0303, 0, 0, 128⟩

/-- Candidate B: TLS_RSA_WITH_AES_256_CBC_SHA. -/
def cipherB : SSL_CIPHER :=
  ⟨0x03000035, SSL_kRSA, SSL_aRSA, 0, 0, 0x0301, 0x0303, 0, 0, 256⟩

/-- An ephemeral-EC ECDSA suite (TLS_ECDHE_ECDSA_WITH_AES_128_CBC_SHA). -/
def cipherE : SSL_CIPHER :=
  ⟨0x0300c009, SSL_kECDHE, SSL_aECDSA, 0, 0, 0x0301, 0x0303, 0, 0, 128⟩

/-- The default configuration with the probably-buggy-client flag set and
capability masks admitting both RSA and ECDHE/ECDSA suites. -/
def safariChooseState : ChooseState :=
  { defaultChooseState with
    is_probably_safari := true
    mask_k := SSL_kRSA ||| SSL_kECDHE
    mask_a := SSL_aRSA ||| SSL_aECDSA }

/-- Counterexample to C1: with neither Suite-B nor the prefer-local-order
option active but the probably-buggy-client flag set, the client's first
offer cipherE passes every filter named by the claim (version, capability,
allow-list membership, security policy), yet negotiation returns the later
candidate cipherA instead of cipherE — the tie-break for buggy clients
makes the result differ from the first passing candidate. -/
theorem ssl3_choose_cipher_not_first_passing :
    safariChooseState.suiteb = false ∧
    safariChooseState.opt_server_preference = false ∧
    claim_passes_filters safariChooseState [cipherE, cipherA] cipherE = true ∧
    claim_first_match safariChooseState [cipherE, cipherA] [cipherE, cipherA]
      = some cipherE ∧
    ssl3_choose_cipher safariChooseState [cipherE, cipherA] [cipherE, cipherA]
      = some cipherA ∧
    cipherA ≠ cipherE := by
  decide

/-- C1 as amended: when neither Suite-B nor the prefer-local-order option is
active, and additionally the probably-buggy-client flag is clear and the
TLS-1.3 SHA-256 PSK bias is not in effect, cipher negotiation iterates the
client's list in its given order and returns the first candidate passing
the version, capability, allow-list-membership and security-policy filters;
in particular with client offers [A, B] and server allows [B, A] it returns
A, and with client offers [B, A] and the same server list it returns B. -/
theorem ssl3_choose_cipher_client_order :
    (∀ (s : ChooseState) (clnt srvr : List SSL_CIPHER),
      s.suiteb = false → s.opt_server_preference = false →
      s.is_probably_safari = false →
      (s.is_tls13 = false ∨ s.psk_server_callback = false ∨
        s.has_cert = true) →
      ssl3_choose_cipher s clnt srvr = claim_first_match s clnt srvr) ∧
    ssl3_choose_cipher defaultChooseState [cipherA, cipherB]
      [cipherB, cipherA] = some cipherA ∧
    ssl3_choose_cipher defaultChooseState [cipherB, cipherA]
      [cipherB, cipherA] = some cipherB := by
  refine ⟨?_, by decide, by decide⟩
  intro s clnt srvr hsb hsp hsafari hbias
  have hps : (s.is_tls13 && s.psk_server_callback && !s.has_cert) = false := by
    rcases hbias with h | h | h <;> simp [h]
  simp only [ssl3_choose_cipher]
  rw [if_neg (by simp [hsb]), if_neg (by simp [hsp]), hps]
  exact choose_cipher_loop_no_bias s srvr hsafari clnt

/-- Witness for the amended C1 at the default configuration with a
single-suite exchange. -/
theorem ssl3_choose_cipher_client_order_witness :
    ssl3_choose_cipher defaultChooseState [cipherA] [cipherA] =
      claim_first_match defaultChooseState [cipherA] [cipherA] :=
  ssl3_choose_cipher_client_order.1 defaultChooseState [cipherA] [cipherA]
    rfl rfl rfl (Or.inl rfl)
